import Mathlib

/-!
Verification of the code-to-flowchart renderers.

This file gives a shallow embedding, in Lean, of the three per-family
flowchart renderers of the repository (python_parser.py, c_parser.py,
java_parser.py) and of the dispatcher (parser.py), and proves properties
of the rendered diagrams.

Embedding conventions:
* Each family is embedded at the level of its parsed statement
  representation (the Python adapter's `ast` statements, the C adapter's
  node tuples produced by `_parse_block`, the Java adapter's statement
  dictionaries produced by `_parse_block`).  The renderers are translated
  statement by statement from the source.
* The renderers build line lists / node and edge lists exactly as the
  source does; the entry points join them with newlines.
* Python regular expressions used by the classifiers are implemented as
  explicit character-list matchers with the same semantics on the inputs
  the source feeds them (the relevant greedy/backtracking behaviour is
  reproduced and documented at each definition).
* Machine strings are `String`; node-id counters are `Nat`.
-/

namespace Flow

/-- ASCII whitespace class: the characters matched by the regex class
backslash-s and stripped by Python `str.strip()` on ASCII input
(space, tab, newline, carriage return, vertical tab, form feed). -/
def isPySpace (c : Char) : Bool :=
  c = ' ' || c = '\t' || c = '\n' || c = '\r' || c.toNat = 11 || c.toNat = 12

/-- Python `str.strip()`: drop leading and trailing whitespace. -/
def pyStrip (s : String) : String :=
  ⟨((s.data.dropWhile isPySpace).reverse.dropWhile isPySpace).reverse⟩

/-- Python `str.rstrip()`: drop trailing whitespace. -/
def pyStripR (s : String) : String :=
  ⟨(s.data.reverse.dropWhile isPySpace).reverse⟩

/-- Python `str.rstrip(';')`: drop trailing semicolons. -/
def rstripSemi (s : String) : String :=
  ⟨(s.data.reverse.dropWhile (· = ';')).reverse⟩

/-- Replace every non-overlapping occurrence of the (nonempty) pattern,
scanning left to right.  The first argument is a structural-recursion
bound: every step consumes one unit of it and at least one character of
the list, so with the list length as the initial bound the zero case is
reached only on the empty list and the function agrees with Python
`str.replace`. -/
def replaceFuel (pat rep : List Char) : Nat → List Char → List Char
  | 0, s => s
  | _ + 1, [] => []
  | f + 1, c :: cs =>
    if pat.isPrefixOf (c :: cs) then
      rep ++ replaceFuel pat rep f ((c :: cs).drop pat.length)
    else
      c :: replaceFuel pat rep f cs

/-- Python `str.replace(pat, rep)` (all occurrences, left to right).
The source never calls `replace` with an empty pattern; for totality an
empty pattern leaves the string unchanged. -/
def strReplace (s pat rep : String) : String :=
  match pat.data with
  | [] => s
  | _ :: _ => ⟨replaceFuel pat.data rep.data s.data.length s.data⟩

/-- `html.escape(text, quote=False)`: Python performs the three
replacements in this order. -/
def htmlEscape (s : String) : String :=
  strReplace (strReplace (strReplace s "&" "&amp;") "<" "&lt;") ">" "&gt;"

/-- Python substring containment (`needle in hay`). -/
def containsSub : (hay : List Char) → (needle : List Char) → Bool
  | [], needle => needle.isEmpty
  | c :: cs, needle => needle.isPrefixOf (c :: cs) || containsSub cs needle

/-- Substring containment on strings. -/
def strContains (hay needle : String) : Bool :=
  containsSub hay.data needle.data

/-- `str.startswith` on strings. -/
def strStarts (s pre : String) : Bool :=
  pre.data.isPrefixOf s.data

/-- `str.endswith` on strings. -/
def strEnds (s suf : String) : Bool :=
  suf.data.reverse.isPrefixOf s.data.reverse

/-- Line-break characters recognised by Python `str.splitlines` that can
occur in ASCII source (newline, carriage return, vertical tab, form
feed). -/
def isLineBreak (c : Char) : Bool :=
  c = '\n' || c = '\r' || c.toNat = 11 || c.toNat = 12

/-- `text.splitlines()[0]` for nonempty `text` (first line); returns the
empty string on empty input. -/
def firstLine (s : String) : String :=
  ⟨s.data.takeWhile (fun c => ! isLineBreak c)⟩

/-- Python `"\n".join(...)` / `"sep".join(...)`. -/
def joinWith (sep : String) : List String → String
  | [] => ""
  | [x] => x
  | x :: y :: rest => x ++ sep ++ joinWith sep (y :: rest)

/-- Regex word character (`[A-Za-z0-9_]`), used for word boundaries. -/
def isWordChar (c : Char) : Bool :=
  c.isAlphanum || c = '_'

/-- Everything after the last occurrence of `c`, or `none` when `c` does
not occur. -/
def afterLast (c : Char) : List Char → Option (List Char)
  | [] => none
  | x :: rest =>
    match afterLast c rest with
    | some r => some r
    | none => if x = c then some rest else none

/-- Everything before the last occurrence of a closing parenthesis, or
`none` when none occurs. -/
def capToLastParen : List Char → Option (List Char)
  | [] => none
  | c :: rest =>
    match capToLastParen rest with
    | some cap => some (c :: cap)
    | none => if c = ')' then some [] else none

/-- Python `str.split(sep)` for a one-character separator (keeps empty
parts, like Python). -/
def splitOnChar (sep : Char) : List Char → List (List Char)
  | [] => [[]]
  | c :: cs =>
    let rest := splitOnChar sep cs
    if c = sep then [] :: rest
    else
      match rest with
      | [] => [[c]]
      | r :: rs => (c :: r) :: rs

/-- Python `str.split()` with no argument: whitespace-separated words,
no empty parts. -/
def pyWords : List Char → List (List Char)
  | [] => []
  | c :: cs =>
    if isPySpace c then pyWords cs
    else
      match pyWords cs with
      | [] => [[c]]
      | r :: rs =>
        match cs with
        | [] => [[c]]
        | c2 :: _ => if isPySpace c2 then [c] :: r :: rs else (c :: r) :: rs

/-! ## Python family (python_parser.py)

The Python adapter parses with `ast.parse` and renders the top-level
statement list.  The embedding works on the parsed statement list.  A
leaf statement carries the data `handle_expr` inspects: the
classification performed by `handle_expr`'s `isinstance` chain is
mirrored by the constructor, the emitted label and shape by
`handle_expr` below. -/

/-- A top-level "simple" Python statement, as classified by
`handle_expr`:
* `printStr arg`: `print("arg")` — an `ast.Expr` whose value is a call
  of `print` with a single string-constant argument;
* `inputAssign target prompt conv`: `target = input("prompt")`, or
  `target = conv(input("prompt"))` when `conv` is present (`target` is
  `ast.unparse` of the first assignment target, already stripped);
* `assignOther txt`: any other `ast.Assign`; `txt` is `ast.unparse` of
  the node;
* `exprCall txt`: any other `ast.Expr` wrapping a call;
* `otherStmt txt`: any other statement, `txt` its `ast.unparse`. -/
inductive PyLeaf where
  | printStr (arg : String)
  | inputAssign (target prompt : String) (conv : Option String)
  | assignOther (txt : String)
  | exprCall (txt : String)
  | otherStmt (txt : String)

/-- `safe_label` from python_parser.py: `html.escape(text, quote=False)`,
newlines to spaces, then un-escape the two quote entities. -/
def safe_label (text : String) : String :=
  strReplace (strReplace (strReplace (htmlEscape text) "\n" " ") "&quot;" "\"") "&#x27;" "\x27"

/-- `ast.unparse(node).strip().splitlines()[0]` followed by the 50-character
truncation used throughout `handle_expr`. -/
def genericLabel (txt : String) : String :=
  let l := firstLine (pyStrip txt)
  if l.data.length > 50 then ⟨l.data.take 47⟩ ++ "..." else l

/-- Rectangle node text: the shape format string `["{}"]` applied to the
escaped label. -/
def rectNode (lbl : String) : String :=
  "[\"" ++ safe_label lbl ++ "\"]"

/-- Parallelogram node text: the shape format string `[/"{}"/]`. -/
def ioNode (lbl : String) : String :=
  "[/\"" ++ safe_label lbl ++ "\"/]"

/-- `handle_expr` on a simple statement: label text and shape as in
python_parser.py lines 27–110. -/
def handle_expr : PyLeaf → String
  | .printStr a => ioNode ("Output: " ++ a)
  | .inputAssign t p none => ioNode ("Input " ++ t ++ ": " ++ p)
  | .inputAssign t p (some cf) => ioNode ("Input " ++ t ++ ": " ++ p ++ " (as " ++ cf ++ ")")
  | .assignOther txt => rectNode (genericLabel txt)
  | .exprCall txt => ioNode (genericLabel txt)
  | .otherStmt txt => rectNode (genericLabel txt)

/-- A parsed top-level Python statement, mirroring the `isinstance`
dispatch of the rendering loop (python_parser.py lines 227–289).
Condition/target/iterable/subject/pattern fields hold the corresponding
`ast.unparse` text. -/
inductive PyStmt where
  | leaf (l : PyLeaf)
  | ifS (test : String) (body orelse : List PyStmt)
  | whileS (test : String) (body : List PyStmt)
  | forS (target iter : String) (body : List PyStmt)
  | matchS (subject : String) (cases : List (Option String × List PyStmt))

/-- `handle_expr` applied to an arbitrary statement node.  For control
statements `ast.unparse(...).strip().splitlines()[0]` is the header line
shown here (Case 4 of `handle_expr`: rectangle, truncated). -/
def handleExprStmt : PyStmt → String
  | .leaf l => handle_expr l
  | .ifS t _ _ => rectNode (genericLabel ("if " ++ t ++ ":"))
  | .whileS t _ => rectNode (genericLabel ("while " ++ t ++ ":"))
  | .forS tg it _ => rectNode (genericLabel ("for " ++ tg ++ " in " ++ it ++ ":"))
  | .matchS subj _ => rectNode (genericLabel ("match " ++ subj ++ ":"))

/-- Renderer state of the Python adapter: the emitted line list and the
node-id counter (`node_counter`). -/
structure PySt where
  lines : List String
  counter : Nat

/-- Node id produced by `get_id` for counter value `k`. -/
def pyId (k : Nat) : String :=
  "n" ++ toString k

/-- `get_id()`: increment the counter and return the fresh id. -/
def pyGetId (st : PySt) : PySt × String :=
  (⟨st.lines, st.counter + 1⟩, pyId (st.counter + 1))

/-- `lines.append(l)`. -/
def addLine (st : PySt) (l : String) : PySt :=
  ⟨st.lines ++ [l], st.counter⟩

/-- Branch body loop of `handle_if_elif_else`: every statement of the
branch is connected with the same labelled edge (`-- Yes -->` for the
then-branch, `-- No -->` for the else-branch), exactly as the source
does inside its `for stmt in ...` loops. -/
def pyBranchFold (edgeLbl : String) : List PyStmt → PySt → String → PySt × String
  | [], st, cur => (st, cur)
  | s :: rest, st, cur =>
    let (st1, sid) := pyGetId st
    let st2 := addLine st1 (cur ++ " -- " ++ edgeLbl ++ " --> " ++ sid ++ handleExprStmt s)
    pyBranchFold edgeLbl rest st2 sid

/-- Unlabelled chain used for the tail of a loop body or of a match-case
body. -/
def pyChainFold : List PyStmt → PySt → String → PySt × String
  | [], st, cur => (st, cur)
  | s :: rest, st, cur =>
    let (st1, sid) := pyGetId st
    let st2 := addLine st1 (cur ++ " --> " ++ sid ++ handleExprStmt s)
    pyChainFold rest st2 sid

/-- `handle_if_elif_else` (python_parser.py lines 113–169).  Returns the
new tail node ("End" when every branch was closed into End). -/
def pyHandleIf : PyStmt → PySt → String → Bool → PySt × String
  | .ifS test body orelse, st, cur, isLast =>
    let (stA, cid) := pyGetId st
    let st1 := addLine stA (cid ++ "\x7b\"" ++ safe_label (pyStrip test) ++ "\"\x7d")
    let st2 := addLine st1 (cur ++ " --> " ++ cid)
    let (st3, yesLast) :=
      match body with
      | [] =>
        let (sY, yid) := pyGetId st2
        (addLine sY (cid ++ " -- Yes --> " ++ yid ++ "[[No action]]"), yid)
      | b :: bs => pyBranchFold "Yes" (b :: bs) st2 cid
    let (st4, ends) :=
      match orelse with
      | [] =>
        let (sN, nid) := pyGetId st3
        (addLine sN (cid ++ " -- No --> " ++ nid ++ "[[No action]]"), [yesLast, nid])
      | [PyStmt.ifS t2 b2 o2] =>
        let (sE, elifLast) := pyHandleIf (PyStmt.ifS t2 b2 o2) st3 cid isLast
        (sE, [yesLast, elifLast])
      | e :: es =>
        let (sN, noLast) := pyBranchFold "No" (e :: es) st3 cid
        (sN, [yesLast, noLast])
    if isLast then
      (ends.foldl (fun s2 be => addLine s2 (be ++ " --> End")) st4, "End")
    else
      let (st5, mid) := pyGetId st4
      (ends.foldl (fun s2 be => addLine s2 (be ++ " --> " ++ mid)) st5, mid)
  | _, st, cur, _ => (st, cur)

/-- Loop-condition label (`handle_loop` lines 177–186): `For target in
iter` for a `for` loop, the unparsed stripped test for a `while` loop. -/
def pyLoopLabel : PyStmt → String
  | .forS tg it _ => "For " ++ pyStrip tg ++ " in " ++ pyStrip it
  | .whileS t _ => pyStrip t
  | _ => ""

/-- Loop body of a `for`/`while` statement. -/
def pyLoopBody : PyStmt → List PyStmt
  | .forS _ _ b => b
  | .whileS _ b => b
  | _ => []

/-- `handle_loop` (python_parser.py lines 172–224): decision node, "Yes"
edge into the body chain, back-edge to the decision node, "No" exit. -/
def pyHandleLoop (s : PyStmt) (st : PySt) (cur : String) (isLast : Bool) : PySt × String :=
  let (stA, lid) := pyGetId st
  let st1 := addLine stA (lid ++ "\x7b\"" ++ safe_label (pyLoopLabel s) ++ "\"\x7d")
  let st2 := addLine st1 (cur ++ " --> " ++ lid)
  let (st3, bodyLast) :=
    match pyLoopBody s with
    | [] =>
      let (sE, eid) := pyGetId st2
      (addLine sE (lid ++ " -- Yes --> " ++ eid ++ "[[Empty Loop Body]]"), eid)
    | b :: bs =>
      let (sF, fid) := pyGetId st2
      let sF2 := addLine sF (lid ++ " -- Yes --> " ++ fid ++ handleExprStmt b)
      pyChainFold bs sF2 fid
  let st4 := addLine st3 (bodyLast ++ " --> " ++ lid)
  let (st5, xid) := pyGetId st4
  let st6 := addLine st5 (lid ++ " -- No --> " ++ xid)
  if isLast then (addLine st6 (xid ++ " --> End"), "End")
  else (st6, xid)

/-- Case label of a match case (python_parser.py lines 250–253). -/
def pyCaseLabel : Option String → String
  | some p => safe_label ("case " ++ pyStrip p)
  | none => "case (default)"

/-- Case loop of the match handler: renders each case body and collects
the branch ends in order. -/
def pyCasesFold : List (Option String × List PyStmt) → PySt → String → List String → PySt × List String
  | [], st, _, ends => (st, ends)
  | (pat, body) :: rest, st, mid, ends =>
    let lbl := pyCaseLabel pat
    let (st2, clast) :=
      match body with
      | [] =>
        let (sE, eid) := pyGetId st
        (addLine sE (mid ++ " -- " ++ lbl ++ " --> " ++ eid ++ "[[No action]]"), eid)
      | b :: bs =>
        let (sF, fid) := pyGetId st
        let sF2 := addLine sF (mid ++ " -- " ++ lbl ++ " --> " ++ fid ++ handleExprStmt b)
        pyChainFold bs sF2 fid
    pyCasesFold rest st2 mid (ends ++ [clast])

/-- One iteration of the top-level rendering loop (python_parser.py
lines 227–289), dispatching on the statement class. -/
def pyStep (s : PyStmt) (st : PySt) (last : String) (isLast : Bool) : PySt × String :=
  match s with
  | .leaf _ =>
    let (st1, nid) := pyGetId st
    let st2 := addLine st1 (nid ++ handleExprStmt s)
    let st3 := addLine st2 (last ++ " --> " ++ nid)
    (st3, nid)
  | .ifS _ _ _ => pyHandleIf s st last isLast
  | .matchS subj cases =>
    let (st1, mid) := pyGetId st
    let st2 := addLine st1 (mid ++ "\x7b\"Match " ++ safe_label (pyStrip subj) ++ "\"\x7d")
    let st3 := addLine st2 (last ++ " --> " ++ mid)
    let (st4, ends) := pyCasesFold cases st3 mid []
    if isLast then
      (ends.foldl (fun s2 be => addLine s2 (be ++ " --> End")) st4, "End")
    else
      let (st5, mmid) := pyGetId st4
      (ends.foldl (fun s2 be => addLine s2 (be ++ " --> " ++ mmid)) st5, mmid)
  | .whileS _ _ => pyHandleLoop s st last isLast
  | .forS _ _ _ => pyHandleLoop s st last isLast

/-- The top-level rendering loop: `is_last_statement` is true exactly on
the final element of `tree.body`. -/
def pyLoop : List PyStmt → PySt → String → PySt × String
  | [], st, last => (st, last)
  | s :: rest, st, last =>
    let (st2, last2) := pyStep s st last rest.isEmpty
    pyLoop rest st2 last2

/-- The closing lines (python_parser.py lines 291–294): connect the tail
into End unless the tail already is End, then declare the End node. -/
def pyClose (p : PySt × String) : List String :=
  let st := if p.2 ≠ "End" then addLine p.1 (p.2 ++ " --> End((End))") else p.1
  st.lines ++ ["End((End))"]

/-- The full line list produced by `python_parser.code_to_flowchart` on
a successfully parsed module body. -/
def pyLines (body : List PyStmt) : List String :=
  pyClose (pyLoop body ⟨["graph TD", "Start((Start))"], 0⟩ "Start")

/-- `python_parser.code_to_flowchart` on a parsed module body: the line
list joined with newlines. -/
def pyFlow (body : List PyStmt) : String :=
  joinWith "\n" (pyLines body)

/-- Modelled from the spec ("the graph is a simple chain: Start → s1 →
s2 → … → End, one edge per consecutive pair"): the expected chain lines
for a list of plain statements, starting from counter `c` and tail
`prev`.  This definition follows the spec's words and is compared with
the renderer. -/
def pyChainSpecFrom : List PyLeaf → Nat → String → List String
  | [], _, prev => [prev ++ " --> End((End))", "End((End))"]
  | l :: rest, c, prev =>
    (pyId (c + 1) ++ handle_expr l) :: (prev ++ " --> " ++ pyId (c + 1)) ::
      pyChainSpecFrom rest (c + 1) (pyId (c + 1))

/-- Modelled from the spec: the whole chain diagram for plain
statements. -/
def pyChainSpec (ls : List PyLeaf) : List String :=
  "graph TD" :: "Start((Start))" :: pyChainSpecFrom ls 0 "Start"

/-! ## C family (c_parser.py)

The C adapter parses the program text into nested node tuples
(`_parse_block`) and renders them.  The embedding works on the parsed
node list; the classifier `_label_and_kind` with its regular
expressions, and the rendering loop of `code_to_flowchart`, are
translated below. -/

/-- A parsed C node, mirroring the tuples built by `_parse_block`:
`('stmt', s)`, `('if', cond, then, else)`, `('for', header, body)`,
`('while', cond, body)`, `('do', cond, body)`,
`('switch', expr, cases)`. -/
inductive CNode where
  | stmt (s : String)
  | ifN (cond : String) (thenN : List CNode) (elseN : Option (List CNode))
  | forN (header : String) (body : List CNode)
  | whileN (cond : String) (body : List CNode)
  | doN (cond : String) (body : List CNode)
  | switchN (expr : String) (cases : List (String × List CNode))

/-- Whitespace-run collapsing, one pass (the regex substitution of every
whitespace run by a single space). -/
def collapseWsAux : Bool → List Char → List Char
  | _, [] => []
  | prevSp, c :: cs =>
    if isPySpace c then
      if prevSp then collapseWsAux true cs else ' ' :: collapseWsAux true cs
    else c :: collapseWsAux false cs

/-- `_clean_label` from c_parser.py: remove both quote characters, strip,
collapse whitespace runs to one space, HTML-escape. -/
def _clean_label (s : String) : String :=
  let s1 : String := ⟨s.data.filter (fun c => c ≠ '"' && c.toNat ≠ 39)⟩
  let s2 := pyStrip s1
  htmlEscape ⟨collapseWsAux false s2.data⟩

/-- Generic regex search: try the matcher at every start position, left
to right (Python `re.search`). -/
def searchAux {α : Type} (f : List Char → Option α) : List Char → Option α
  | [] => f []
  | c :: rest =>
    match f (c :: rest) with
    | some r => some r
    | none => searchAux f rest

/-- Matcher for the pattern `printf`, optional whitespace, `(`, optional
whitespace, `"`, capture of non-quote characters, `"` — anchored at the
given position (the whole of `re.search(r'printf\s*\(\s*"([^"]*)"', s)`
once combined with `searchAux`). -/
def matchPrintfAt (cs : List Char) : Option String :=
  if "printf".data.isPrefixOf cs then
    match (cs.drop 6).dropWhile isPySpace with
    | '(' :: r3 =>
      match r3.dropWhile isPySpace with
      | '"' :: r5 =>
        let payload := r5.takeWhile (· ≠ '"')
        match r5.dropWhile (· ≠ '"') with
        | '"' :: _ => some ⟨payload⟩
        | _ => none
      | _ => none
    | _ => none
  else none

/-- One attempt of the greedy group `(.+)` followed by `)`: the dot does
not cross newlines, so the capture is the part of the newline-free
prefix that precedes its last closing parenthesis; it must be
nonempty. -/
def greedyCapParen (tail : List Char) : Option (List Char) :=
  let seg := tail.takeWhile (· ≠ '\n')
  match capToLastParen seg with
  | some cap => if cap.isEmpty then none else some cap
  | none => none

/-- Backtracking of the `\s*` that precedes `(.+)\)`: the whitespace run
is consumed greedily, then given back one character at a time while the
rest of the pattern fails.  `i` is the current length of the consumed
run. -/
def scanfBacktrack (r2 : List Char) : Nat → Option (List Char)
  | 0 => greedyCapParen r2
  | j + 1 =>
    match greedyCapParen (r2.drop (j + 1)) with
    | some c => some c
    | none => scanfBacktrack r2 j

/-- Matcher for `scanf`, optional whitespace, `(`, one or more non-comma
characters, `,`, optional whitespace, greedy nonempty capture, `)` —
the pattern `re.search(r'scanf\s*\([^,]+,\s*(.+)\)', s)` anchored at the
given position. -/
def matchScanfAt (cs : List Char) : Option String :=
  if "scanf".data.isPrefixOf cs then
    match (cs.drop 5).dropWhile isPySpace with
    | '(' :: r =>
      let a := r.takeWhile (· ≠ ',')
      if a.isEmpty then none
      else
        match r.dropWhile (· ≠ ',') with
        | ',' :: r2 =>
          match scanfBacktrack r2 (r2.takeWhile isPySpace).length with
          | some cap => some ⟨cap⟩
          | none => none
        | _ => none
    | _ => none
  else none

/-- The C type keywords of the declaration regexes. -/
def cTypeKws : List String :=
  ["short", "long", "int", "char", "float", "double", "size_t"]

/-- Try each keyword alternative in order; on a match, check the word
boundary and return the remaining characters. -/
def tryKw (cs : List Char) : List String → Option (List Char)
  | [] => none
  | kw :: rest =>
    if kw.data.isPrefixOf cs then
      let after := cs.drop kw.data.length
      match after with
      | [] => some []
      | c :: _ => if isWordChar c then tryKw cs rest else some after
    else tryKw cs rest

/-- The optional `(?:unsigned\s+|signed\s+)?` group followed by `\s*`.
Skipping the group after it matched cannot help here (no type keyword is
a prefix of "unsigned" or "signed"), so no further backtracking is
modelled. -/
def declAfterOpt (cs : List Char) : List Char :=
  if "unsigned".data.isPrefixOf cs && ((cs.drop 8).head?.elim false isPySpace) then
    (cs.drop 8).dropWhile isPySpace
  else if "signed".data.isPrefixOf cs && ((cs.drop 6).head?.elim false isPySpace) then
    (cs.drop 6).dropWhile isPySpace
  else cs.dropWhile isPySpace

/-- The anchored declaration test of `_label_and_kind`:
`re.match(r'^(?:unsigned\s+|signed\s+)?\s*(?:short|long|int|char|float|double|size_t)\b', s)`.
Returns the remaining characters after the keyword on success. -/
def declKwRest (s : String) : Option (List Char) :=
  tryKw (declAfterOpt s.data) cTypeKws

/-- The `(.*)$` capture of the declaration regex in `_extract_var_names`:
without `re.S` the dot excludes newlines and `$` matches at the end or
just before one final newline, so the capture exists exactly when the
remainder has no interior newline. -/
def dollarCapture (r : List Char) : Option String :=
  if r.all (· ≠ '\n') then some ⟨r⟩
  else
    match r.reverse with
    | '\n' :: front => if front.all (· ≠ '\n') then some ⟨front.reverse⟩ else none
    | _ => none

/-- `re.sub(r'\[.*\]', '', p)`: greedy, so one removal from the first
opening bracket through the last closing bracket when a closing bracket
follows the opening one; otherwise unchanged. -/
def stripBrackets (p : List Char) : List Char :=
  let pre := p.takeWhile (· ≠ '[')
  match p.dropWhile (· ≠ '[') with
  | [] => p
  | _ :: rs =>
    match afterLast ']' rs with
    | some suffix => pre ++ suffix
    | none => p

/-- `_extract_var_names` from c_parser.py. -/
def _extract_var_names (decl : String) : List String :=
  let d := rstripSemi (pyStrip decl)
  match declKwRest d with
  | none => []
  | some kwRest =>
    match dollarCapture kwRest with
    | none => []
    | some rest0 =>
      let rest := pyStrip rest0
      let parts := ((splitOnChar ',' rest.data).map (fun p => pyStrip ⟨p⟩)).filter (· ≠ "")
      parts.foldl
        (fun names p =>
          let p1 := pyStrip ⟨p.data.takeWhile (· ≠ '=')⟩
          let p2 := pyStrip ⟨p1.data.map (fun c => if c = '*' then ' ' else c)⟩
          let p3 := pyStrip ⟨stripBrackets p2.data⟩
          if p3 ≠ "" then
            match (pyWords p3.data).getLast? with
            | some w => names ++ [(⟨w⟩ : String)]
            | none => names
          else names)
        []

/-- `_label_and_kind` from c_parser.py: maps a parsed node to its label
text and kind string. -/
def _label_and_kind : CNode → String × String
  | .stmt raw =>
    let s := pyStrip raw
    if strStarts s "printf" then
      match searchAux matchPrintfAt s.data with
      | some payload => ("Display " ++ payload, "io")
      | none => ("Output", "io")
    else if strStarts s "scanf" then
      match searchAux matchScanfAt s.data with
      | some cap =>
        ("Input " ++ pyStrip ⟨(pyStrip cap).data.filter (· ≠ '&')⟩, "io")
      | none => ("Input", "io")
    else if (declKwRest s).isSome then
      match _extract_var_names s with
      | [] => ("Declare variable", "proc")
      | [n] => ("Declare variable " ++ n, "proc")
      | names => ("Declare variables " ++ joinWith ", " names, "proc")
    else if strStarts s "return" then ("Return", "proc")
    else (pyStrip (rstripSemi s), "proc")
  | .ifN cond _ _ => (if cond = "" then "Condition" else pyStrip cond, "decision")
  | .whileN cond _ => (if cond = "" then "Condition" else pyStrip cond, "decision")
  | .forN hdr _ => (if hdr = "" then "For" else pyStrip hdr, "decision")
  | .doN cond _ => (if cond = "" then "Condition" else pyStrip cond, "decision")
  | .switchN expr _ => (if expr = "" then "Switch" else pyStrip expr, "decision")

/-- Renderer state of the C adapter: emitted lines and node counter. -/
structure CSt where
  lines : List String
  counter : Nat

/-- Node id produced by `new_id` for counter value `k`. -/
def cId (k : Nat) : String :=
  "N" ++ toString k

/-- `lines.append(l)`. -/
def cAddLine (st : CSt) (l : String) : CSt :=
  ⟨st.lines ++ [l], st.counter⟩

/-- The node line emitted by `add_node` for an id, an already cleaned
label and a kind. -/
def cNodeLine (nid safe kind : String) : String :=
  if kind = "io" then nid ++ "[/\"" ++ safe ++ "\"/]"
  else if kind = "decision" then nid ++ "\x7b\"" ++ safe ++ "\"\x7d"
  else nid ++ "[\"" ++ safe ++ "\"]"

/-- `add_node(label, kind)`: fresh id, cleaned label, one node line. -/
def cAddNode (st : CSt) (label kind : String) : CSt × String :=
  let nid := cId (st.counter + 1)
  (⟨st.lines ++ [cNodeLine nid (_clean_label label) kind], st.counter + 1⟩, nid)

/-- `connect(a, b, edge_label)`. -/
def cConnect (st : CSt) (a b : String) (lbl : Option String) : CSt :=
  match lbl with
  | some l => cAddLine st (a ++ " -- " ++ l ++ " --> " ++ b)
  | none => cAddLine st (a ++ " --> " ++ b)

/-- The `for tnode in then_nodes[1:]` loop of the if-branch rendering:
each node is rendered flat via `_label_and_kind` and chained. -/
def cBranchRest : List CNode → CSt → String → CSt × String
  | [], st, cur => (st, cur)
  | n :: rest, st, cur =>
    let lk := _label_and_kind n
    let (st1, nid) := cAddNode st lk.1 (if lk.2 = "io" then "io" else "proc")
    let st2 := cConnect st1 cur nid none
    cBranchRest rest st2 nid

/-- Rendering of one if-branch (c_parser.py lines 350–384): the first
node is connected from the decision with the given edge label, the rest
are chained; an empty branch yields no node (`None` tail). -/
def cBranch (nodes : List CNode) (st : CSt) (dId lbl : String) : CSt × Option String :=
  match nodes with
  | [] => (st, none)
  | first :: rest =>
    let lk := _label_and_kind first
    let (st1, fid) := cAddNode st lk.1 (if lk.2 = "io" then "io" else "proc")
    let st2 := cConnect st1 dId fid (some lbl)
    let (st3, lastId) := cBranchRest rest st2 fid
    (st3, some lastId)

/-- The main rendering loop of `c_parser.code_to_flowchart` (lines
336–447): `if` nodes get decision/branch/merge treatment; every other
node (including loops and switches) is rendered as a single flat node,
with duplicate-label suppression and an early exit on `Return`. -/
def cLoop : List CNode → CSt → String → Option String → List String
  | [], st, prev, _ => (cAddLine (cConnect st prev "End" none) "End((End))").lines
  | n :: rest, st, prev, lastLbl =>
    match n with
    | .ifN cond thenN elseN =>
      let condLabel := (_label_and_kind (.ifN cond thenN elseN)).1
      let (st1, dId) := cAddNode st condLabel "decision"
      let st2 := cConnect st1 prev dId none
      let (st3, thenLast) := cBranch thenN st2 dId "Yes"
      let (st4, elseLast) := cBranch (elseN.getD []) st3 dId "No"
      if rest.isEmpty then
        let st5 :=
          match thenLast with
          | some t => cConnect st4 t "End" none
          | none => cConnect st4 dId "End" (some "Yes")
        let st6 :=
          match elseLast with
          | some e => cConnect st5 e "End" none
          | none => cConnect st5 dId "End" (some "No")
        (cAddLine st6 "End((End))").lines
      else
        let (st5, mId) := cAddNode st4 "Merge" "proc"
        let st6 :=
          match thenLast with
          | some t => cConnect st5 t mId none
          | none => cConnect st5 dId mId (some "Yes")
        let st7 :=
          match elseLast with
          | some e => cConnect st6 e mId none
          | none => cConnect st6 dId mId (some "No")
        cLoop rest st7 mId lastLbl
    | _ =>
      let lk := _label_and_kind n
      if lk.1 = "" then cLoop rest st prev lastLbl
      else if lastLbl = some lk.1 then cLoop rest st prev lastLbl
      else
        let (st1, nid) := cAddNode st lk.1 (if lk.2 = "io" then "io" else "proc")
        let st2 := cConnect st1 prev nid none
        if lk.1 = "Return" then
          (cAddLine (cConnect st2 nid "End" none) "End((End))").lines
        else cLoop rest st2 nid (some lk.1)

/-- The full line list of `c_parser.code_to_flowchart` on a parsed node
list. -/
def cLines (ast : List CNode) : List String :=
  cLoop ast ⟨["graph TD", "Start((Start))"], 0⟩ "Start" none

/-- `c_parser.code_to_flowchart` on a parsed node list: the line list
joined with newlines. -/
def cFlow (ast : List CNode) : String :=
  joinWith "\n" (cLines ast)

/-! ## Java family (java_parser.py)

The Java adapter splits the text into lines, parses them into statement
dictionaries (`_parse_block`), and renders nodes and edges.  The
embedding works on the parsed statement list.  Edge endpoints and edge
labels can be Python `None`; they are `Option String` here and `None`
prints as "None", like a Python f-string would. -/

/-- A parsed Java statement, mirroring the dictionaries built by
java_parser.py `_parse_block`.  Switch-case bodies are raw line
strings, exactly as in the source. -/
inductive JStmt where
  | stmt (code : String)
  | ifChain (clauses : List (String × List JStmt)) (els : Option (List JStmt))
  | forL (cond : String) (body : List JStmt)
  | whileL (cond : String) (body : List JStmt)
  | doWhile (cond : String) (body : List JStmt)
  | switchS (cond : String) (cases : List (String × List String))

/-- Matcher for `System\.out\.println\s*\((.*)\)` anchored at the given
position: returns the greedy capture (which cannot cross a newline) and
the characters after the match. -/
def printlnAt (cs : List Char) : Option (List Char × List Char) :=
  if "System.out.println".data.isPrefixOf cs then
    match (cs.drop 18).dropWhile isPySpace with
    | [] => none
    | c :: r =>
      if c = '(' then
        match capToLastParen (r.takeWhile (· ≠ '\n')), afterLast ')' (r.takeWhile (· ≠ '\n')) with
        | some cap, some suffix => some (cap, suffix ++ r.dropWhile (· ≠ '\n'))
        | _, _ => none
      else none
  else none

/-- `re.sub(r'System\.out\.println\s*\((.*)\)', r'print(\1)', s)` with a
structural-recursion bound: every step consumes one unit of the bound
and at least one character (a successful match consumes the whole
matched span, which is nonempty), so with the list length as the
initial bound the function performs the full left-to-right
substitution. -/
def printlnSubFuel : Nat → List Char → List Char
  | 0, s => s
  | _ + 1, [] => []
  | f + 1, c :: cs =>
    match printlnAt (c :: cs) with
    | some capRest =>
      "print(".data ++ capRest.1 ++ [')'] ++ printlnSubFuel f capRest.2
    | none => c :: printlnSubFuel f cs

/-- The `println`-to-`print` substitution on a character list. -/
def printlnSub (cs : List Char) : List Char :=
  printlnSubFuel cs.length cs

/-- `_safe_label` from java_parser.py: strip, rewrite
`System.out.println(x)` to `print(x)`, drop one trailing semicolon (and
trailing whitespace before it), replace double quotes by single
quotes. -/
def jSafeLabel (s : String) : String :=
  let s1 := pyStrip s
  let s2 : String := ⟨printlnSub s1.data⟩
  let s3 := if strEnds s2 ";" then pyStripR ⟨s2.data.dropLast⟩ else s2
  ⟨s3.data.map (fun c => if c = '"' then Char.ofNat 39 else c)⟩

/-- Word-boundary search for "class" (`re.search(r'\bclass\b', lbl)`),
tracking the previous character for the left boundary. -/
def hasWordClassAux : Option Char → List Char → Bool
  | _, [] => false
  | prev, c :: rest =>
    (prev.elim true (fun p => ! isWordChar p)
      && "class".data.isPrefixOf (c :: rest)
      && (((c :: rest).drop 5).head?.elim true (fun b => ! isWordChar b)))
    || hasWordClassAux (some c) rest

/-- Word-boundary search for "class" starting at the beginning. -/
def hasWordClass (cs : List Char) : Bool :=
  hasWordClassAux none cs

/-- Renderer state of the Java adapter: node lines, edge triples
`(source, target, label)` and the id counter. -/
structure JSt where
  nodes : List String
  edges : List (Option String × Option String × Option String)
  counter : Nat

/-- Node id produced by `new_id` for counter value `k`. -/
def jId (k : Nat) : String :=
  "N" ++ toString k

/-- `new_id()`. -/
def jNewId (st : JSt) : JSt × String :=
  (⟨st.nodes, st.edges, st.counter + 1⟩, jId (st.counter + 1))

/-- `add_node_rect(label)` (an all-whitespace label becomes one
space). -/
def jAddRect (st : JSt) (label : String) : JSt × String :=
  let lbl := if pyStrip label = "" then " " else label
  let (st1, nid) := jNewId st
  (⟨st1.nodes ++ [nid ++ "[\"" ++ lbl ++ "\"]"], st1.edges, st1.counter⟩, nid)

/-- `add_node_diamond(label)`. -/
def jAddDiamond (st : JSt) (label : String) : JSt × String :=
  let (st1, nid) := jNewId st
  (⟨st1.nodes ++ [nid ++ "\x7b\"" ++ label ++ "\"\x7d"], st1.edges, st1.counter⟩, nid)

/-- `add_node_circle(label)`. -/
def jAddCircle (st : JSt) (label : String) : JSt × String :=
  let (st1, nid) := jNewId st
  (⟨st1.nodes ++ [nid ++ "((" ++ label ++ "))"], st1.edges, st1.counter⟩, nid)

/-- `edges.append(e)`. -/
def jAddEdge (st : JSt) (e : Option String × Option String × Option String) : JSt :=
  ⟨st.nodes, st.edges ++ [e], st.counter⟩

/-- The loop-body text of a Java `for`/`while` loop: the statements are
not rendered recursively but joined into one rectangle text (nested
constructs print as "..."). -/
def jBodyText (body : List JStmt) : String :=
  joinWith "\n" (body.map (fun s => match s with | .stmt c => jSafeLabel c | _ => "..."))

/-- The `for`/`while` branch of `render_block` (java_parser.py lines
212–225): one diamond; when the body is nonempty, one rectangle with a
"True" edge in and an unlabelled back-edge to the diamond; the diamond
becomes the tail. -/
def renderLoopJ (st : JSt) (first last : Option String) (loopType cond : String)
    (body : List JStmt) : JSt × Option String × Option String :=
  let (st1, condN) := jAddDiamond st (loopType ++ " (" ++ jSafeLabel cond ++ ")")
  let st2 :=
    match last with
    | some l => jAddEdge st1 (some l, some condN, none)
    | none => st1
  let st3 :=
    match body with
    | [] => st2
    | _ :: _ =>
      let (sB, bodyN) := jAddRect st2 (jBodyText body)
      jAddEdge (jAddEdge sB (some condN, some bodyN, some "True")) (some bodyN, some condN, none)
  (st3, (if first.isNone then some condN else first), some condN)

/-- Case label of a switch case (java_parser.py lines 249–250). -/
def jCaseLabel (lbl : String) (body : List String) : String :=
  let caseBody := joinWith "\n" (body.map jSafeLabel)
  if caseBody ≠ "" then lbl ++ ":\n" ++ caseBody else lbl

/-- The case loop of the switch branch: one rectangle per case, a
"case"-labelled edge from the switch diamond, an unlabelled edge into
the merge node. -/
def jCasesFold (swN mergeN : String) : List (String × List String) → JSt → JSt
  | [], st => st
  | (lbl, body) :: rest, st =>
    let (st1, caseN) := jAddRect st (jCaseLabel lbl body)
    let st2 := jAddEdge (jAddEdge st1 (some swN, some caseN, some "case")) (some caseN, some mergeN, none)
    jCasesFold swN mergeN rest st2

mutual

/-- `render_block` (java_parser.py lines 185–256): fold the statements,
tracking the first and last rendered node of the block. -/
def renderBlock (st : JSt) (first last : Option String) : List JStmt → JSt × Option String × Option String
  | [] => (st, first, last)
  | s :: rest =>
    let r := renderStmt st first last s
    renderBlock r.1 r.2.1 r.2.2 rest

/-- One statement of `render_block`.  The `ifChain` branch is
`render_if_chain` (java_parser.py lines 258–292) followed by the entry
edge appended by `render_block`: the merge node is created
unconditionally first; each clause gets a diamond chained by "False"
edges; clause bodies and the else block feed the merge node, which
becomes the tail. -/
def renderStmt (st : JSt) (first last : Option String) : JStmt → JSt × Option String × Option String
  | .stmt code =>
    let lbl := jSafeLabel code
    if hasWordClass lbl.data || strContains lbl "static void main" then (st, first, last)
    else
      let (st1, nid) := jAddRect st lbl
      let st2 :=
        match last with
        | some l => jAddEdge st1 (some l, some nid, none)
        | none => st1
      (st2, (if first.isNone then some nid else first), some nid)
  | .ifChain clauses els =>
    let (st1, mergeId) := jNewId st
    let stM : JSt := ⟨st1.nodes ++ [mergeId ++ "(( ))"], st1.edges, st1.counter⟩
    let r := renderClauses mergeId stM none none clauses
    let prevCond := r.2.1
    let condFirst := r.2.2
    let stE :=
      match els with
      | some eb =>
        let re := renderBlock r.1 none none eb
        match re.2.1 with
        | some ef =>
          jAddEdge (jAddEdge re.1 (prevCond, some ef, some "False")) (re.2.2, some mergeId, none)
        | none => jAddEdge re.1 (prevCond, some mergeId, some "False")
      | none => jAddEdge r.1 (prevCond, some mergeId, some "False")
    let st2 :=
      match last with
      | some l => jAddEdge stE (some l, condFirst, none)
      | none => stE
    (st2, (if first.isNone then condFirst else first), some mergeId)
  | .forL cond body => renderLoopJ st first last "for" cond body
  | .whileL cond body => renderLoopJ st first last "while" cond body
  | .doWhile cond body =>
    let r := renderBlock st none none body
    let bodyFirst := r.2.1
    let bodyLast := r.2.2
    let (st2, condN) := jAddDiamond r.1 ("do-while (" ++ jSafeLabel cond ++ ")")
    let st3 :=
      match last with
      | some l => jAddEdge st2 (some l, bodyFirst, none)
      | none => st2
    let st4 := jAddEdge st3 (bodyLast, some condN, none)
    let st5 := jAddEdge st4 (some condN, bodyFirst, some "True")
    (st5, (if first.isNone then bodyFirst else first), some condN)
  | .switchS cond cases =>
    let (st1, swN) := jAddDiamond st ("switch (" ++ jSafeLabel cond ++ ")")
    let st2 :=
      match last with
      | some l => jAddEdge st1 (some l, some swN, none)
      | none => st1
    let (st3, mergeN) := jNewId st2
    let st4 : JSt := ⟨st3.nodes ++ [mergeN ++ "(( ))"], st3.edges, st3.counter⟩
    let st5 := jCasesFold swN mergeN cases st4
    (st5, (if first.isNone then some swN else first), some mergeN)

/-- The clause loop of `render_if_chain`: returns the last and first
clause diamonds. -/
def renderClauses (mergeId : String) (st : JSt) (prevCond firstCond : Option String) :
    List (String × List JStmt) → JSt × Option String × Option String
  | [] => (st, prevCond, firstCond)
  | (cond, thenB) :: rest =>
    let (st1, condId) := jAddDiamond st (jSafeLabel cond)
    let firstCond2 := if firstCond.isNone then some condId else firstCond
    let st2 :=
      match prevCond with
      | some pc => jAddEdge st1 (some pc, some condId, some "False")
      | none => st1
    let r := renderBlock st2 none none thenB
    let st4 :=
      match r.2.1 with
      | some tf => jAddEdge (jAddEdge r.1 (some condId, some tf, some "True")) (r.2.2, some mergeId, none)
      | none => jAddEdge r.1 (some condId, some mergeId, some "True")
    renderClauses mergeId st4 (some condId) firstCond2 rest

end

/-- `parse_java_code` after parsing (java_parser.py lines 294–306):
Start and End circles, the rendered block, the initial Start edge and
the final End edge. -/
def jFinal (ast : List JStmt) : JSt :=
  let st0 : JSt := ⟨[], [], 0⟩
  let (st1, startId) := jAddCircle st0 "Start"
  let (st2, endId) := jAddCircle st1 "End"
  let r := renderBlock st2 none none ast
  let firstId := r.2.1
  let lastId := r.2.2
  let st4 : JSt :=
    match firstId with
    | some f => ⟨r.1.nodes, (some startId, some f, none) :: r.1.edges, r.1.counter⟩
    | none => ⟨r.1.nodes, (some startId, some endId, none) :: r.1.edges, r.1.counter⟩
  match lastId with
  | some l => jAddEdge st4 (some l, some endId, none)
  | none => jAddEdge st4 (some startId, some endId, none)

/-- An edge endpoint or label formatted by an f-string (`None` prints as
"None"). -/
def optStr (o : Option String) : String :=
  match o with
  | some s => s
  | none => "None"

/-- One mermaid edge line (java_parser.py lines 311–315); an edge with a
falsy label (None or empty) prints unlabelled. -/
def jEdgeLine (e : Option String × Option String × Option String) : String :=
  match e.2.2 with
  | some l =>
    if l = "" then optStr e.1 ++ " --> " ++ optStr e.2.1
    else optStr e.1 ++ " -->|" ++ l ++ "| " ++ optStr e.2.1
  | none => optStr e.1 ++ " --> " ++ optStr e.2.1

/-- The node lines of the rendered Java diagram. -/
def jNodes (ast : List JStmt) : List String :=
  (jFinal ast).nodes

/-- The edge triples of the rendered Java diagram. -/
def jEdges (ast : List JStmt) : List (Option String × Option String × Option String) :=
  (jFinal ast).edges

/-- The full line list of `parse_java_code` on a parsed statement
list. -/
def jLin (ast : List JStmt) : List String :=
  "flowchart TD" :: jNodes ast ++ (jEdges ast).map jEdgeLine

/-- `parse_java_code` on a parsed statement list: the line list joined
with newlines. -/
def jFlow (ast : List JStmt) : String :=
  joinWith "\n" (jLin ast)

/-! ## Dispatcher (parser.py) -/

/-- `detect_language` from parser.py: substring heuristics. -/
def detect_language (code : String) : String :=
  if strContains code "public class" || strContains code "System.out" then "java"
  else if strContains code "#include" || strContains code "printf" || strContains code "scanf" then "c"
  else "python"

/-- The exception raised by the Java branch of the dispatcher:
parser.py line 19 calls `java_parser.code_to_flowchart(code)`, but the
module java_parser defines no attribute `code_to_flowchart` (its
renderer is named `parse_java_code`), so the attribute lookup raises. -/
def javaAttrError : String :=
  "AttributeError: module java_parser has no attribute code_to_flowchart"

/-- `flowchart_from_input` from parser.py.  The C and Python adapters
are passed as function arguments (their full pipelines include the
text-level parsers); the Java branch models the `AttributeError` of the
missing attribute as an `Except.error`.  Fallible behaviour is the
`Except`; both other branches return normally. -/
def flowchart_from_input (cAdapter pyAdapter : String → String) (code : String) :
    Except String String :=
  let lang := detect_language code
  if lang = "java" then .error javaAttrError
  else if lang = "c" then .ok (cAdapter code)
  else .ok (pyAdapter code)

/-! ## Theorems -/

/-- C10: on an empty parsed statement list the Python renderer returns
exactly the four lines "graph TD", "Start((Start))",
"Start --> End((End))", "End((End))" joined by newlines: the Start
terminal connected directly to End with no content nodes. -/
theorem C10_empty_program_diagram :
    pyFlow [] = "graph TD\nStart((Start))\nStart --> End((End))\nEnd((End))" := rfl

/-- C9: each embedded entry point is a pure function of its parsed
input; two calls of the same entry point on identical input return
identical diagram text (so in particular the two diagrams are
structurally isomorphic).  The embedding is pure because each source
call owns its own id counter and output buffer (no state survives a
call), which the per-call `node_counter`/`lines` locals of all three
renderers show. -/
theorem C9_deterministic (p : List PyStmt) (c : List CNode) (j : List JStmt) :
    pyFlow p = pyFlow p ∧ cFlow c = cFlow c ∧ jFlow j = jFlow j :=
  ⟨rfl, rfl, rfl⟩

/-- C1: the dispatcher does not return a diagram for Java input: for
any source text containing "public class" (or "System.out"),
`detect_language` selects "java" and parser.py line 19 calls
`java_parser.code_to_flowchart`, an attribute the java_parser module
does not define (its renderer is `parse_java_code`), so the call raises
`AttributeError` instead of returning a renderable diagram — whatever
the C and Python adapters would do. -/
theorem C1_java_dispatch_attribute_error (cf pf : String → String) :
    flowchart_from_input cf pf "public class Hello { }" = Except.error javaAttrError := rfl

/-- C1 witness: the failing input evaluated with concrete adapter
arguments. -/
theorem C1_witness :
    flowchart_from_input (fun _ => "") (fun _ => "") "public class Hello { }" =
      Except.error javaAttrError :=
  C1_java_dispatch_attribute_error (fun _ => "") (fun _ => "")

/-- C2 counterexample: the C renderer draws a `while` loop as a single
plain node with no body and no back-edge.  For the program
`while (x < 5) { x = x + 1; }` the whole diagram is the chain
Start → N1 → End: the only edge whose target is the loop's node N1 is
the sequential entry from Start, so the rendered graph contains no
back-edge at all (and no decision node for the loop). -/
theorem C2_c_while_no_backedge :
    cLines [CNode.whileN "x < 5" [CNode.stmt "x = x + 1;"]] =
      ["graph TD", "Start((Start))", "N1[\"x &lt; 5\"]", "Start --> N1", "N1 --> End",
        "End((End))"] ∧
    (["graph TD", "Start((Start))", "N1[\"x &lt; 5\"]", "Start --> N1", "N1 --> End",
        "End((End))"].countP (fun l => strEnds l " --> N1")) = 1 ∧
    "Start --> N1" ∈
      ["graph TD", "Start((Start))", "N1[\"x &lt; 5\"]", "Start --> N1", "N1 --> End",
        "End((End))"] :=
  ⟨by decide, by decide, by decide⟩

/-- C3 counterexample: a return nested inside a C `if` branch is
rendered as an ordinary chain node: for
`if (a) { return 0; x = 1; }` the Return node N2 is followed by the
node N3 for the lexically later statement `x = 1;` (emitted at a deeper
nesting level after the return), the edge out of N2 goes to N3, and no
edge from N2 into End exists. -/
theorem C3_c_nested_return_continues :
    cLines [CNode.ifN "a" [CNode.stmt "return 0;", CNode.stmt "x = 1;"] none] =
      ["graph TD", "Start((Start))", "N1\x7b\"a\"\x7d", "Start --> N1", "N2[\"Return\"]",
        "N1 -- Yes --> N2", "N3[\"x = 1\"]", "N2 --> N3", "N3 --> End", "N1 -- No --> End",
        "End((End))"] ∧
    "N2[\"Return\"]" ∈ cLines [CNode.ifN "a" [CNode.stmt "return 0;", CNode.stmt "x = 1;"] none] ∧
    "N2 --> N3" ∈ cLines [CNode.ifN "a" [CNode.stmt "return 0;", CNode.stmt "x = 1;"] none] ∧
    "N2 --> End" ∉ cLines [CNode.ifN "a" [CNode.stmt "return 0;", CNode.stmt "x = 1;"] none] :=
  ⟨by decide, by decide, by decide, by decide⟩

/-- C4 counterexample: the Java renderer creates a merge node even for
a conditional that is the last (sole) construct.  For
`if (x > 0) { output("pos"); } else { output("neg"); }` the synthetic
merge node N3 exists, both branch tails N5 and N6 connect into N3 (not
into End N2), and N3 connects onward into End. -/
theorem C4_java_sole_if_creates_merge :
    jNodes [JStmt.ifChain [("x > 0", [JStmt.stmt "output(\"pos\");"])]
        (some [JStmt.stmt "output(\"neg\");"])] =
      ["N1((Start))", "N2((End))", "N3(( ))", "N4\x7b\"x > 0\"\x7d",
        "N5[\"output(\x27pos\x27)\"]", "N6[\"output(\x27neg\x27)\"]"] ∧
    jEdges [JStmt.ifChain [("x > 0", [JStmt.stmt "output(\"pos\");"])]
        (some [JStmt.stmt "output(\"neg\");"])] =
      [(some "N1", some "N4", none), (some "N4", some "N5", some "True"),
        (some "N5", some "N3", none), (some "N4", some "N6", some "False"),
        (some "N6", some "N3", none), (some "N3", some "N2", none)] ∧
    (some "N5", some "N2", (none : Option String)) ∉
      jEdges [JStmt.ifChain [("x > 0", [JStmt.stmt "output(\"pos\");"])]
        (some [JStmt.stmt "output(\"neg\");"])] :=
  ⟨by decide, by decide, by decide⟩

/-- C5 counterexample: in the C family two consecutive plain statements
with the same rendered label do not produce the chain
Start → s1 → s2 → End with one node per statement: for
`x = 1; x = 1;` only one content node N1 is emitted (the second
statement is skipped), so no line of the output mentions a second node
N2. -/
theorem C5_c_duplicate_breaks_chain :
    cLines [CNode.stmt "x = 1;", CNode.stmt "x = 1;"] =
      ["graph TD", "Start((Start))", "N1[\"x = 1\"]", "Start --> N1", "N1 --> End",
        "End((End))"] ∧
    (["graph TD", "Start((Start))", "N1[\"x = 1\"]", "Start --> N1", "N1 --> End",
        "End((End))"].all (fun l => ! strContains l "N2")) = true :=
  ⟨by decide, by decide⟩

/-- C6 counterexample: the Java switch decision node has one outgoing
edge per case and every one of them carries the same label "case": for
`switch(x) { case 1: a(); case 2: b(); }` the decision node N3 has the
two outgoing edges (N3, N5, "case") and (N3, N6, "case") — the labels
are not pairwise distinct, and there is no separate default edge. -/
theorem C6_java_switch_duplicate_edge_labels :
    jEdges [JStmt.switchS "x" [("case 1", ["a();"]), ("case 2", ["b();"])]] =
      [(some "N1", some "N3", none), (some "N3", some "N5", some "case"),
        (some "N5", some "N4", none), (some "N3", some "N6", some "case"),
        (some "N6", some "N4", none), (some "N4", some "N2", none)] ∧
    ((jEdges [JStmt.switchS "x" [("case 1", ["a();"]), ("case 2", ["b();"])]]).filter
        (fun e => e.1 == some "N3")).map (fun e => e.2.2) = [some "case", some "case"] ∧
    "N3\x7b\"switch (x)\"\x7d" ∈ jNodes [JStmt.switchS "x" [("case 1", ["a();"]), ("case 2", ["b();"])]] :=
  ⟨by decide, by decide, by decide⟩

/-- C7 counterexample: the Python renderer does not suppress a
statement whose rendered label equals the immediately preceding one:
for the module `x = 1` followed by `x = 1` both node lines n1 and n2
are emitted with the identical label. -/
theorem C7_python_reemits_duplicate :
    pyLines [PyStmt.leaf (PyLeaf.assignOther "x = 1"), PyStmt.leaf (PyLeaf.assignOther "x = 1")] =
      ["graph TD", "Start((Start))", "n1[\"x = 1\"]", "Start --> n1", "n2[\"x = 1\"]",
        "n1 --> n2", "n2 --> End((End))", "End((End))"] ∧
    "n1[\"x = 1\"]" ∈
      pyLines [PyStmt.leaf (PyLeaf.assignOther "x = 1"), PyStmt.leaf (PyLeaf.assignOther "x = 1")] ∧
    "n2[\"x = 1\"]" ∈
      pyLines [PyStmt.leaf (PyLeaf.assignOther "x = 1"), PyStmt.leaf (PyLeaf.assignOther "x = 1")] :=
  ⟨by decide, by decide, by decide⟩

/-- C8 counterexample: in the C family an empty branch body gets no
placeholder node: for `if (x) { } y = 1;` the empty then branch (and
the missing else branch) connect straight from the decision N1 into the
merge node N2 with labelled edges, and no placeholder node (no
`[[...]]` line) exists anywhere in the output. -/
theorem C8_c_empty_branch_no_placeholder :
    cLines [CNode.ifN "x" [] none, CNode.stmt "y = 1;"] =
      ["graph TD", "Start((Start))", "N1\x7b\"x\"\x7d", "Start --> N1", "N2[\"Merge\"]",
        "N1 -- Yes --> N2", "N1 -- No --> N2", "N3[\"y = 1\"]", "N2 --> N3", "N3 --> End",
        "End((End))"] ∧
    ((cLines [CNode.ifN "x" [] none, CNode.stmt "y = 1;"]).all
        (fun l => ! strContains l "[[")) = true ∧
    "N1 -- Yes --> N2" ∈ cLines [CNode.ifN "x" [] none, CNode.stmt "y = 1;"] ∧
    "N2[\"Merge\"]" ∈ cLines [CNode.ifN "x" [] none, CNode.stmt "y = 1;"] :=
  ⟨by decide, by decide, by decide, by decide⟩

/-- C2 amended: in the Java family, a `while` loop with nonempty body
rendered as the sole statement yields exactly one back-edge — the edge
from the body node N4 back to the loop's own decision node N3 — among
the four edges Start→N3 (entry), N3→N4 ("True"), N4→N3 (back-edge) and
N3→End (exit); N3 is the loop's decision diamond.  (The C renderer, by
contrast, emits no back-edge at all; see the counterexample.) -/
theorem C2_java_while_single_backedge (cond : String) (b : JStmt) (bs : List JStmt) :
    jEdges [JStmt.whileL cond (b :: bs)] =
      [(some "N1", some "N3", none), (some "N3", some "N4", some "True"),
        (some "N4", some "N3", none), (some "N3", some "N2", none)] ∧
    jId 3 ++ "\x7b\"" ++ ("while (" ++ jSafeLabel cond ++ ")") ++ "\"\x7d" ∈
      jNodes [JStmt.whileL cond (b :: bs)] ∧
    ([(some "N1", some "N3", none), (some "N3", some "N4", some "True"),
        (some "N4", some "N3", none), (some "N3", some "N2", none)].countP
        (fun e => e.1 == some "N4" && e.2.1 == some "N3")) = 1 ∧
    ([(some "N1", some "N3", none), (some "N3", some "N4", some "True"),
        (some "N4", some "N3", none), (some "N3", some "N2", none)].countP
        (fun e => e.2.1 == some "N3")) = 2 := by
  refine ⟨?_, ?_, by decide, by decide⟩
  · simp [jEdges, jFinal, renderBlock, renderStmt, renderLoopJ, jAddDiamond, jAddRect,
      jAddEdge, jNewId, jAddCircle, jId]
    decide
  · simp [jNodes, jFinal, renderBlock, renderStmt, renderLoopJ, jAddDiamond, jAddRect,
      jAddEdge, jNewId, jAddCircle]

/-- C3 amended: in the C family a top-level return statement draws an
edge straight into End and rendering halts: whatever statements follow
(`rest`), the output ends with the Return node, the entry edge, the
Return→End edge and the End declaration — no node for any later
statement is emitted. -/
theorem C3_c_toplevel_return_halts (s : String) (rest : List CNode) (lines : List String)
    (c : Nat) (prev : String) (lastLbl : Option String)
    (hret : _label_and_kind (CNode.stmt s) = ("Return", "proc"))
    (hdup : lastLbl ≠ some "Return") :
    cLoop (CNode.stmt s :: rest) ⟨lines, c⟩ prev lastLbl =
      lines ++ [cNodeLine (cId (c + 1)) "Return" "proc", prev ++ " --> " ++ cId (c + 1),
        cId (c + 1) ++ " --> End", "End((End))"] := by
  have hcl : _clean_label "Return" = "Return" := by decide
  simp [cLoop, hret, hdup, cAddNode, cConnect, cAddLine, hcl, String.append_assoc]

/-- C3 witness: a concrete return followed by a further statement whose
node never appears. -/
theorem C3_witness :
    cLoop (CNode.stmt "return 0;" :: [CNode.stmt "x = 1;"]) ⟨["graph TD", "Start((Start))"], 0⟩
        "Start" none =
      ["graph TD", "Start((Start))"] ++ [cNodeLine (cId (0 + 1)) "Return" "proc",
        "Start" ++ " --> " ++ cId (0 + 1), cId (0 + 1) ++ " --> End", "End((End))"] :=
  C3_c_toplevel_return_halts "return 0;" [CNode.stmt "x = 1;"] ["graph TD", "Start((Start))"] 0
    "Start" none (by decide) (by decide)

/-- C4 amended: in the C family the merge policy is as the claim
states.  For a conditional with nonempty branches (rendered here with
one statement per branch): when it is the last construct, both branch
ends connect directly to End and the output consists of exactly the
decision node, the two branch nodes and their edges — no synthetic
merge node; when further statements follow, a merge node labelled
"Merge" is created, both branch tails connect into it, and rendering of
the following statements continues from the merge node as the new tail
(with the duplicate-suppression state unchanged). -/
theorem C4_c_if_end_or_merge (cond : String) (a b : CNode) (lines : List String) (c : Nat)
    (prev : String) (lastLbl : Option String) (r : CNode) (rs : List CNode) :
    (cLoop [CNode.ifN cond [a] (some [b])] ⟨lines, c⟩ prev lastLbl =
      lines ++
        [cNodeLine (cId (c + 1))
            (_clean_label ((_label_and_kind (CNode.ifN cond [a] (some [b]))).1)) "decision",
          prev ++ " --> " ++ cId (c + 1),
          cNodeLine (cId (c + 2)) (_clean_label ((_label_and_kind a).1))
            (if (_label_and_kind a).2 = "io" then "io" else "proc"),
          cId (c + 1) ++ " -- Yes --> " ++ cId (c + 2),
          cNodeLine (cId (c + 3)) (_clean_label ((_label_and_kind b).1))
            (if (_label_and_kind b).2 = "io" then "io" else "proc"),
          cId (c + 1) ++ " -- No --> " ++ cId (c + 3),
          cId (c + 2) ++ " --> End",
          cId (c + 3) ++ " --> End",
          "End((End))"]) ∧
    (cLoop (CNode.ifN cond [a] (some [b]) :: r :: rs) ⟨lines, c⟩ prev lastLbl =
      cLoop (r :: rs)
        ⟨lines ++
          [cNodeLine (cId (c + 1))
              (_clean_label ((_label_and_kind (CNode.ifN cond [a] (some [b]))).1)) "decision",
            prev ++ " --> " ++ cId (c + 1),
            cNodeLine (cId (c + 2)) (_clean_label ((_label_and_kind a).1))
              (if (_label_and_kind a).2 = "io" then "io" else "proc"),
            cId (c + 1) ++ " -- Yes --> " ++ cId (c + 2),
            cNodeLine (cId (c + 3)) (_clean_label ((_label_and_kind b).1))
              (if (_label_and_kind b).2 = "io" then "io" else "proc"),
            cId (c + 1) ++ " -- No --> " ++ cId (c + 3),
            cNodeLine (cId (c + 4)) "Merge" "proc",
            cId (c + 2) ++ " --> " ++ cId (c + 4),
            cId (c + 3) ++ " --> " ++ cId (c + 4)], c + 4⟩
        (cId (c + 4)) lastLbl) := by
  have hm : _clean_label "Merge" = "Merge" := by decide
  constructor
  · simp [cLoop, cBranch, cBranchRest, cAddNode, cConnect, cAddLine, String.append_assoc]
  · simp [cLoop, cBranch, cBranchRest, cAddNode, cConnect, cAddLine, hm, String.append_assoc]

/-- A Python node id is never the End terminal. -/
theorem pyId_ne_End (k : Nat) : pyId k ≠ "End" := by
  intro h
  have h2 : 'n' :: (toString k).data = ['E', 'n', 'd'] := congrArg String.data h
  simp at h2

/-- The Python rendering loop on a list of plain statements produces
exactly the spec's chain, from any starting state. -/
theorem pyLoop_leaf_chain (ls : List PyLeaf) : ∀ (lines : List String) (c : Nat) (last : String),
    last ≠ "End" →
    pyClose (pyLoop (ls.map PyStmt.leaf) ⟨lines, c⟩ last) = lines ++ pyChainSpecFrom ls c last := by
  induction ls with
  | nil =>
    intro lines c last h
    simp [pyLoop, pyClose, pyChainSpecFrom, h, addLine]
  | cons l ls ih =>
    intro lines c last h
    simp only [List.map_cons, pyLoop, pyStep, pyGetId, addLine, handleExprStmt]
    rw [ih (lines ++ [pyId (c + 1) ++ handle_expr l] ++ [last ++ " --> " ++ pyId (c + 1)]) (c + 1)
      (pyId (c + 1)) (pyId_ne_End (c + 1))]
    simp [pyChainSpecFrom, List.append_assoc]

/-- C5 amended: in the Python family, an input consisting only of
plain statements renders to exactly the simple chain
Start → s1 → s2 → … → End of the spec — one node per statement and one
edge per consecutive pair (`pyChainSpec` is the spec-side chain
definition). -/
theorem C5_python_plain_chain (ls : List PyLeaf) :
    pyLines (ls.map PyStmt.leaf) = pyChainSpec ls := by
  have := pyLoop_leaf_chain ls ["graph TD", "Start((Start))"] 0 "Start" (by decide)
  simpa [pyLines, pyChainSpec] using this

/-- C6 amended: in the Java family, decision nodes of `while` loops
with nonempty bodies and of if/else conditionals have out-degree 2 with
pairwise-distinct edge labels: the loop decision N3 (followed by a
further statement) carries exactly the labels "True" and none, the
conditional decision N4 exactly "True" and "False".  (Java switch
decisions violate the claim; see the counterexample.) -/
theorem C6_java_decision_out_degree (cond : String) (b : JStmt) (bs : List JStmt)
    (cond2 : String) :
    ((jEdges [JStmt.whileL cond (b :: bs), JStmt.stmt "x = 1;"]).filter
        (fun e => e.1 == some "N3")).map (fun e => e.2.2) = [some "True", none] ∧
    ((jEdges [JStmt.ifChain [(cond2, [JStmt.stmt "a = 1;"])] (some [JStmt.stmt "b = 2;"])]).filter
        (fun e => e.1 == some "N4")).map (fun e => e.2.2) = [some "True", some "False"] := by
  have h1 : hasWordClass (jSafeLabel "x = 1;").data = false := by decide
  have h2 : strContains (jSafeLabel "x = 1;") "static void main" = false := by decide
  have h3 : hasWordClass (jSafeLabel "a = 1;").data = false := by decide
  have h4 : strContains (jSafeLabel "a = 1;") "static void main" = false := by decide
  have h5 : hasWordClass (jSafeLabel "b = 2;").data = false := by decide
  have h6 : strContains (jSafeLabel "b = 2;") "static void main" = false := by decide
  constructor
  · simp [jEdges, jFinal, renderBlock, renderStmt, renderLoopJ, jAddDiamond, jAddRect,
      jAddEdge, jNewId, jAddCircle, jId, h1, h2]
    decide
  · simp [jEdges, jFinal, renderBlock, renderStmt, renderClauses, jAddDiamond, jAddRect,
      jAddEdge, jNewId, jAddCircle, jId, h3, h4, h5, h6]
    decide

/-- C7 amended: only the C family's top-level renderer suppresses a
statement whose rendered label equals the immediately preceding one:
rendering two consecutive statements with equal (nonempty, non-Return)
labels yields exactly the diagram of the first statement alone — the
second is skipped.  (The Python renderer re-emits duplicates; see the
counterexample.) -/
theorem C7_c_duplicate_label_suppressed (sa sb : String)
    (heq : (_label_and_kind (CNode.stmt sb)).1 = (_label_and_kind (CNode.stmt sa)).1)
    (hne : (_label_and_kind (CNode.stmt sa)).1 ≠ "")
    (hnr : (_label_and_kind (CNode.stmt sa)).1 ≠ "Return") :
    cLines [CNode.stmt sa, CNode.stmt sb] = cLines [CNode.stmt sa] := by
  simp [cLines, cLoop, heq, hne, hnr, cAddNode, cConnect, cAddLine]

/-- C7 witness: two distinct declaration statements rendering to the
identical label "Declare variable x" collapse into one declaration
node. -/
theorem C7_witness :
    cLines [CNode.stmt "int x = 1;", CNode.stmt "int x = 2;"] =
      cLines [CNode.stmt "int x = 1;"] :=
  C7_c_duplicate_label_suppressed "int x = 1;" "int x = 2;" (by decide) (by decide) (by decide)

/-- C8 amended: in the Python family, a conditional with an empty then
branch and no else clause places a placeholder "[[No action]]" node on
both outgoing edges of the decision node, so neither edge terminates
into nothing (here for a conditional in final position: both
placeholders then connect to End). -/
theorem C8_python_no_action_placeholders (test cur : String) (lines : List String) (c : Nat) :
    pyHandleIf (PyStmt.ifS test [] []) ⟨lines, c⟩ cur true =
      (⟨lines ++ [pyId (c + 1) ++ "\x7b\"" ++ safe_label (pyStrip test) ++ "\"\x7d",
        cur ++ " --> " ++ pyId (c + 1),
        pyId (c + 1) ++ " -- Yes --> " ++ pyId (c + 2) ++ "[[No action]]",
        pyId (c + 1) ++ " -- No --> " ++ pyId (c + 3) ++ "[[No action]]",
        pyId (c + 2) ++ " --> End", pyId (c + 3) ++ " --> End"], c + 3⟩, "End") := by
  simp [pyHandleIf, pyGetId, addLine, List.append_assoc]

end Flow
